import Mathlib

/-!
# Verification of the ED-visits generator and dashboard aggregation logic

Shallow embedding, in Lean 4, of the computational core of the repository:

* `generate_data.py` — a synthetic emergency-department visit generator
  (per-row formulas for bed occupancy, door-to-provider time, length of
  stay, chief-complaint sampling, flu-wave flag, and disposition);
* `app.py` — the filter mask and KPI computations of the dashboard.

Conventions of the embedding:

* machine floats are modelled as `ℚ` where the code is pure arithmetic and
  as `ℝ` where the source applies `np.exp` (the logistic scores);
* float `NaN` (Python `float("nan")`) is modelled by `Option.none`:
  a function of the source that can return `NaN` becomes an
  `Option`-valued function here;
* `np.clip (x, lo, hi)` is `min (max x lo) hi`;
* `np.round` (round half to even, banker rounding) is `roundHalfEven`;
* a pandas boolean `Series` mask over a frame is a `Bool`-valued predicate
  over a `Row` structure, and the filtered frame is `List.filter`.
-/

namespace EDFlow

/-! ## Data model (§3 of the spec): one dashboard row of `ed_visits.csv`

Only the fields read by the filter/KPI logic of the dashboard are carried.
`arrival_date` is a date ordinal (days since an arbitrary epoch): the
dashboard compares dates only with `≤`/`≥`, so the ordinal is faithful. -/
structure Row where
  arrival_date : ℕ
  triage_level : ℕ
  chief_complaint : String
  arrival_mode : String
  pod : String
  door_to_provider_min : ℤ
  length_of_stay_min : ℤ
  bed_occupancy_pct : ℚ
  disposition : String
  hour : ℕ
  deriving Repr, DecidableEq

/-! ## Dashboard filter (`app.py` lines 81–89)

```python
mask = (
    (df["arrival_date"] >= start_date)
    & (df["arrival_date"] <= end_date)
    & (df["triage_level"].isin(triage_sel))
    & (df["chief_complaint"].isin(complaint_sel))
    & (df["arrival_mode"].isin(mode_sel))
    & (df["pod"].isin(pod_sel))
)
dff = df.loc[mask].copy()
```
`Series.isin s` is list membership in the selection `s`. -/

def mask (startD endD : ℕ) (triage_sel : List ℕ)
    (complaint_sel mode_sel pod_sel : List String) (r : Row) : Bool :=
  (startD ≤ r.arrival_date) && (r.arrival_date ≤ endD)
    && (triage_sel.contains r.triage_level)
    && (complaint_sel.contains r.chief_complaint)
    && (mode_sel.contains r.arrival_mode)
    && (pod_sel.contains r.pod)

/-- The filtered frame `df.loc[mask]`. -/
def applyFilters (df : List Row) (startD endD : ℕ) (triage_sel : List ℕ)
    (complaint_sel mode_sel pod_sel : List String) : List Row :=
  df.filter (mask startD endD triage_sel complaint_sel mode_sel pod_sel)

/-! ## KPI computations (`app.py` lines 92–100)

```python
def safe_mean(series):
    return float(series.mean()) if len(series) else float("nan")
lwbs_rate  = (dff["disposition"].eq("Left Without Being Seen").mean() * 100) if total_visits else 0.0
admit_rate = (dff["disposition"].eq("Admitted").mean() * 100) if total_visits else 0.0
```
`safe_mean` returns `NaN` (here `none`) on an empty series; the two rate
KPIs instead return the float `0.0` on an empty filtered set. -/

def safe_mean (series : List ℚ) : Option ℚ :=
  if series.length ≠ 0 then some (series.sum / series.length) else none

/-- Embedding of `dff["disposition"].eq(d).mean() * 100`: the share (in percent) of rows
whose disposition equals `d`, over a nonempty frame. -/
def dispShare (d : String) (dff : List Row) : ℚ :=
  ((dff.filter (fun r => r.disposition == d)).length : ℚ) / dff.length * 100

def lwbs_rate (dff : List Row) : ℚ :=
  if dff.length ≠ 0 then dispShare "Left Without Being Seen" dff else 0

def admit_rate (dff : List Row) : ℚ :=
  if dff.length ≠ 0 then dispShare "Admitted" dff else 0

/-- The mean-KPI columns of `app.py` lines 96–98 (each fed to `safe_mean`). -/
def avg_dtp (dff : List Row) : Option ℚ :=
  safe_mean (dff.map (fun r => (r.door_to_provider_min : ℚ)))

def avg_los (dff : List Row) : Option ℚ :=
  safe_mean (dff.map (fun r => (r.length_of_stay_min : ℚ)))

def avg_occ (dff : List Row) : Option ℚ :=
  safe_mean (dff.map (fun r => r.bed_occupancy_pct))

/-! ## Generator: numeric helpers (`generate_data.py`)

`np.clip(x, lo, hi) = min(max(x, lo), hi)`; `np.round` rounds half to even
(banker rounding), which `.round(0)`/`.round(1)` in the source use. -/

def clip (x lo hi : ℚ) : ℚ := min (max x lo) hi

/-- Scalar `np.round(x)`: round to the nearest integer, ties to the
even neighbour. -/
def roundHalfEven (x : ℚ) : ℤ :=
  if x - ⌊x⌋ < 1/2 then ⌊x⌋
  else if 1/2 < x - ⌊x⌋ then ⌊x⌋ + 1
  else if Even ⌊x⌋ then ⌊x⌋ else ⌊x⌋ + 1

/-- Scalar `np.round(x, 1)`: round to one decimal place (scale by 10, round half
to even, unscale). -/
def round1 (x : ℚ) : ℚ := (roundHalfEven (10 * x) : ℚ) / 10

/-! ## Generator: flu-wave window (`generate_data.py` lines 37–39)

```python
day_index = ((arrival - start) / pd.Timedelta(days=1)).astype(int).values
flu_wave = ((day_index >= 35) & (day_index <= 55)).astype(int)
```
`arrival = start + uniform-minutes, floored to whole minutes`, so
`arrival - start` is a whole, nonnegative number of minutes `m`;
`(m minutes) / (1 day)` is the float `m / 1440` and `.astype(int)`
truncates toward zero, which on nonnegative values is `ℕ` division. -/

def day_index (minutesSinceStart : ℕ) : ℕ := minutesSinceStart / 1440

def flu_wave_flag (minutesSinceStart : ℕ) : ℕ :=
  if 35 ≤ day_index minutesSinceStart ∧ day_index minutesSinceStart ≤ 55
  then 1 else 0

/-! ## Generator: bed occupancy (`generate_data.py` lines 34–49)

```python
weekend = (dow >= 5).astype(int)
dow_effect = 1.0 + 0.10 * weekend - 0.05 * (dow == 1)  # Tue slightly lighter
bed_occ = (55 + 30 * (hour_peak / hour_peak.max()) + 6 * weekend
           + 10 * flu_wave + rng.normal(0, 6, size=n))
bed_occ = np.clip(bed_occ, 35, 98).round(1)
```
`dow` is the day of week, `0 = Monday .. 6 = Sunday`.  The normalized
hour-intensity term `30 * (hour_peak / hour_peak.max())` and the Gaussian
noise draw enter the formula as opaque per-row numbers and are abstracted
here as the parameters `hourTerm` and `noise`.  Note that `dow_effect` is
computed by the source but never read afterwards: `bed_occ` uses the raw
`weekend` indicator, not `dow_effect`. -/

def weekend (dow : ℕ) : ℚ := if 5 ≤ dow then 1 else 0

/-- Line 35 of `generate_data.py` (a dead value: nothing downstream uses it). -/
def dow_effect (dow : ℕ) : ℚ :=
  1 + (10:ℚ)/100 * weekend dow - (5:ℚ)/100 * (if dow = 1 then 1 else 0)

/-- The pre-clip bed-occupancy value of lines 42–48. -/
def bed_occ_preclip (hourTerm : ℚ) (dow : ℕ) (fluWave : ℚ) (noise : ℚ) : ℚ :=
  55 + hourTerm + 6 * weekend dow + 10 * fluWave + noise

/-- Line 49: `np.clip(bed_occ, 35, 98).round(1)`. -/
def bed_occupancy_pct (hourTerm : ℚ) (dow : ℕ) (fluWave : ℚ) (noise : ℚ) : ℚ :=
  round1 (clip (bed_occ_preclip hourTerm dow fluWave noise) 35 98)

/-! ## Generator: chief-complaint vectors (`generate_data.py` lines 67–77)

```python
base_complaints = np.array(["Chest Pain", "Abdominal Pain", "Injury", "Fever/Resp", "Headache", "Other"])
p_base = np.array([0.10, 0.18, 0.22, 0.16, 0.08, 0.26])
p_flu  = np.array([0.09, 0.16, 0.16, 0.28, 0.07, 0.24])
for i in range(n):
    probs = p_flu if flu_wave[i] == 1 else p_base
    complaint.append(rng.choice(base_complaints, p=probs))
```
-/

def base_complaints : List String :=
  ["Chest Pain", "Abdominal Pain", "Injury", "Fever/Resp", "Headache", "Other"]

def p_base : List ℚ := [10/100, 18/100, 22/100, 16/100, 8/100, 26/100]

def p_flu : List ℚ := [9/100, 16/100, 16/100, 28/100, 7/100, 24/100]

/-- The probability vector used for row `i`: `p_flu if flu_wave[i] == 1 else
p_base` (selected per row from the flag of that row). -/
def complaintProbs (fluWaveFlag : ℕ) : List ℚ :=
  if fluWaveFlag = 1 then p_flu else p_base

/-- The probability a given vector assigns to a named complaint (positional
lookup against `base_complaints`). -/
def probOf (probs : List ℚ) (complaint : String) : ℚ :=
  probs.getD (base_complaints.indexOf complaint) 0

/-! ## Generator: door-to-provider and length of stay
(`generate_data.py` lines 100–117)

```python
dtp_mean = (18 + 0.55 * (bed_occ - 60) + 6 * flu_wave
            - 8 * (triage <= 2) - 3 * (triage == 3) + rng.normal(0, 8, size=n))
door_to_provider_min = np.clip(dtp_mean, 2, 240).round(0).astype(int)

base_los = 110 + 0.45 * (bed_occ - 60) + rng.normal(0, 25, size=n)
los = base_los + 55 * labs_ordered + 65 * imaging_ordered
los += 70 * (triage <= 2) + 15 * (triage == 3)
los += 15 * flu_wave
length_of_stay_min = np.clip(los, 25, 900).round(0).astype(int)
```
The Gaussian noise draws are abstracted as the `noise` parameters;
`labs`/`imaging` are the 0/1 order indicators. -/

def indicator (b : Prop) [Decidable b] : ℚ := if b then 1 else 0

def dtp_mean (bedOcc : ℚ) (fluWave : ℚ) (triage : ℕ) (noise : ℚ) : ℚ :=
  18 + (55:ℚ)/100 * (bedOcc - 60) + 6 * fluWave
    - 8 * indicator (triage ≤ 2) - 3 * indicator (triage = 3) + noise

def door_to_provider_min (bedOcc : ℚ) (fluWave : ℚ) (triage : ℕ)
    (noise : ℚ) : ℤ :=
  roundHalfEven (clip (dtp_mean bedOcc fluWave triage noise) 2 240)

def los (bedOcc : ℚ) (noise : ℚ) (labs imaging : ℕ) (triage : ℕ)
    (fluWave : ℚ) : ℚ :=
  (110 + (45:ℚ)/100 * (bedOcc - 60) + noise)
    + 55 * labs + 65 * imaging
    + 70 * indicator (triage ≤ 2) + 15 * indicator (triage = 3)
    + 15 * fluWave

def length_of_stay_min (bedOcc : ℚ) (noise : ℚ) (labs imaging : ℕ)
    (triage : ℕ) (fluWave : ℚ) : ℤ :=
  roundHalfEven (clip (los bedOcc noise labs imaging triage fluWave) 25 900)

/-! ## Generator: disposition (`generate_data.py` lines 130–147)

```python
admit_prob = logistic(admit_score)
lwbs_prob = np.clip(logistic(lwbs_score), 0, 0.40)
r = rng.random(n)
disposition = np.where(r < lwbs_prob, "Left Without Being Seen", "Discharged")
r2 = rng.random(n)
disposition = np.where((disposition != "Left Without Being Seen") & (r2 < admit_prob), "Admitted", disposition)
```
The two `np.where` steps are per-row; `disposition` below is that per-row
computation, polymorphic in the ordered field carrying the draws so it can
be read back at `ℝ` (where the logistic lives) and evaluated at `ℚ`. -/

def disposition {α : Type} [LinearOrder α] (r lwbsProb r2 admitProb : α) :
    String :=
  let d := if r < lwbsProb then "Left Without Being Seen" else "Discharged"
  if d ≠ "Left Without Being Seen" ∧ r2 < admitProb then "Admitted" else d

/-- The sigmoid `logistic(x) = 1 / (1 + np.exp(-x))` (`generate_data.py` lines 5–6). -/
noncomputable def logistic (x : ℝ) : ℝ := 1 / (1 + Real.exp (-x))

/-- Embedding of `np.clip(logistic(lwbs_score), 0, 0.40)` (line 141), as a function of
the `lwbs_score` of the row. -/
noncomputable def lwbs_prob_of (score : ℝ) : ℝ :=
  min (max (logistic score) 0) ((40:ℝ)/100)

/-! ## Generator: parameter handling (`generate_data.py` lines 8–21, 172)

`generate_ed_data(n, start_date, days, seed, out_csv)` performs **no
explicit validation** of its parameters.  What actually happens, traced
through the source:

* an unparseable `start_date` makes `pd.Timestamp(start_date)` (line 18)
  raise before any random draw — no output file is written;
* `n < 0` makes `rng.uniform(0, days * 24 * 60, size=n)` (line 20) raise
  (negative array dimension) — no output file is written;
* `n = 0` runs until `hour_peak.max()` (line 44), which raises on a
  zero-size array reduction — no output file is written, but this is an
  unhandled mid-generation exception, not an upfront configuration check;
* `n > 0` with `days = 0` (or any `days ≥ 0`) runs to completion:
  `rng.uniform(0, 0, size=n)` returns `n` zeros, every downstream step
  succeeds, and `df.to_csv(out_csv)` (line 172) writes all `n` rows.

The model covers `days ≥ 0` (`days : ℕ`); `startDateParses` abstracts
whether `pd.Timestamp` accepts the `start_date` string. -/

inductive GenOutcome where
  | raisedBeforeOutput : GenOutcome
  | wroteOutput : ℕ → GenOutcome
  deriving Repr, DecidableEq

def generate_ed_data (startDateParses : Bool) (n : ℤ) (days : ℕ) :
    GenOutcome :=
  if startDateParses = false then GenOutcome.raisedBeforeOutput
  else if n < 0 then GenOutcome.raisedBeforeOutput
  else if n = 0 then GenOutcome.raisedBeforeOutput
  else GenOutcome.wroteOutput n.toNat

/-! ## Helper lemmas -/

lemma clip_mem {lo hi : ℚ} (x : ℚ) (h : lo ≤ hi) :
    lo ≤ clip x lo hi ∧ clip x lo hi ≤ hi :=
  ⟨le_min (le_max_right x lo) h, min_le_right _ _⟩

lemma roundHalfEven_bounds (x : ℚ) :
    ⌊x⌋ ≤ roundHalfEven x ∧ roundHalfEven x ≤ ⌊x⌋ + 1 := by
  unfold roundHalfEven
  split_ifs <;> omega

lemma roundHalfEven_mem {a b : ℤ} {x : ℚ} (ha : (a : ℚ) ≤ x) (hb : x ≤ b) :
    a ≤ roundHalfEven x ∧ roundHalfEven x ≤ b := by
  obtain ⟨h1, h2⟩ := roundHalfEven_bounds x
  refine ⟨le_trans (Int.le_floor.mpr ha) h1, ?_⟩
  rcases eq_or_lt_of_le hb with h | h
  · have hf : ⌊x⌋ = b := by rw [h, Int.floor_intCast]
    have hlt : x - ⌊x⌋ < 1/2 := by rw [hf, ← h]; norm_num
    unfold roundHalfEven
    rw [if_pos hlt, hf]
  · have hfb : ⌊x⌋ < b := Int.floor_lt.mpr h
    omega

lemma round1_mem {a b : ℤ} {x : ℚ} (ha : (a : ℚ) ≤ x) (hb : x ≤ b) :
    (a : ℚ) ≤ round1 x ∧ round1 x ≤ b := by
  have ha10 : ((10 * a : ℤ) : ℚ) ≤ 10 * x := by push_cast; linarith
  have hb10 : 10 * x ≤ ((10 * b : ℤ) : ℚ) := by push_cast; linarith
  obtain ⟨h1, h2⟩ := roundHalfEven_mem ha10 hb10
  unfold round1
  constructor
  · have : ((10 * a : ℤ) : ℚ) ≤ (roundHalfEven (10 * x) : ℚ) := by
      exact_mod_cast h1
    push_cast at this
    linarith
  · have : ((roundHalfEven (10 * x) : ℤ) : ℚ) ≤ ((10 * b : ℤ) : ℚ) := by
      exact_mod_cast h2
    push_cast at this
    linarith

/-- Rows whose disposition lies in the three-element set are counted exactly
once across the three disposition filters. -/
lemma disposition_counts_partition (dff : List Row)
    (hdisp : ∀ r ∈ dff, r.disposition = "Discharged"
      ∨ r.disposition = "Admitted"
      ∨ r.disposition = "Left Without Being Seen") :
    (dff.filter (fun r => r.disposition == "Left Without Being Seen")).length
      + (dff.filter (fun r => r.disposition == "Admitted")).length
      + (dff.filter (fun r => r.disposition == "Discharged")).length
      = dff.length := by
  induction dff with
  | nil => rfl
  | cons r t ih =>
    have hr := hdisp r (List.mem_cons_self r t)
    have ht : ∀ x ∈ t, x.disposition = "Discharged"
        ∨ x.disposition = "Admitted"
        ∨ x.disposition = "Left Without Being Seen" :=
      fun x hx => hdisp x (List.mem_cons_of_mem r hx)
    have iht := ih ht
    rcases hr with h | h | h <;>
      simp [List.filter_cons, h, List.length_cons] <;> omega

/-! ## Claim theorems -/

/-- C1 (counterexample): on an empty filtered set the LWBS rate and the
admission rate are the concrete numeric value `0.0` — `app.py` line 99–100
fall back to `0.0`, not to `NaN` — refuting the claim that every KPI
reports NaN/no-data on an empty filtered set. -/
theorem lwbs_admit_rate_empty_is_zero :
    lwbs_rate [] = 0 ∧ admit_rate [] = 0 := by
  constructor <;> rfl

/-- C1 (amended): when the filtered set is empty, the three mean KPIs
(door-to-provider, length of stay, occupancy) are NaN (`none`) and do not
crash, while the LWBS rate and the admission rate are the concrete numeric
value `0.0`. -/
theorem empty_filter_kpis :
    avg_dtp [] = none ∧ avg_los [] = none ∧ avg_occ [] = none
      ∧ lwbs_rate [] = 0 ∧ admit_rate [] = 0 := by
  refine ⟨rfl, rfl, rfl, rfl, rfl⟩

/-- C2 (counterexample): `days = 0` (a non-positive `days`) is not rejected:
with a parseable start date and `n = 5`, `generate_ed_data` runs to
completion and writes all 5 rows, so the generator does not reject every
input with `days ≤ 0`. -/
theorem generator_accepts_zero_days :
    generate_ed_data true 5 0 = GenOutcome.wroteOutput 5 := rfl

/-- C2 (amended): the generator has no explicit parameter validation.  An
unparseable `start_date` raises in `pd.Timestamp` before any draw; `n < 0`
raises in `rng.uniform` and `n = 0` raises at `hour_peak.max()` — in every
such case no output is written, though by uncaught exception rather than a
dedicated configuration check.  But `days ≥ 0` is never rejected: for
`n > 0` and a parseable start date, generation runs to completion and
writes all `n` rows even when `days = 0`. -/
theorem generator_outcome_characterization (p : Bool) (n : ℤ) (days : ℕ) :
    (generate_ed_data p n days = GenOutcome.wroteOutput n.toNat
        ↔ p = true ∧ 0 < n)
      ∧ (generate_ed_data p n days = GenOutcome.raisedBeforeOutput
        ↔ p = false ∨ n ≤ 0) := by
  unfold generate_ed_data
  rcases p with _ | _ <;> split_ifs with h1 h2 <;> simp_all <;> omega

/-- C3 (counterexample): the flu-wave complaint vector does **not** shift
probability mass toward "Other": it assigns "Other" probability 0.24,
strictly below the baseline 0.26. -/
theorem p_flu_lowers_other :
    probOf p_flu "Other" = 24/100 ∧ probOf p_base "Other" = 26/100
      ∧ probOf p_flu "Other" < probOf p_base "Other" := by
  refine ⟨rfl, rfl, ?_⟩
  have h1 : probOf p_flu "Other" = 24/100 := rfl
  have h2 : probOf p_base "Other" = 26/100 := rfl
  rw [h1, h2]
  norm_num

/-- C3 (amended): the chief complaint of each row is drawn from one of two
fixed probability vectors selected by the flu-wave flag of that row, and
the flu-wave vector shifts probability mass toward "Fever/Resp" and away
from "Injury" — and also slightly away from "Other" (0.26 → 0.24), not
toward it. -/
theorem complaint_vector_selection :
    complaintProbs 1 = p_flu ∧ complaintProbs 0 = p_base
      ∧ probOf p_base "Fever/Resp" < probOf p_flu "Fever/Resp"
      ∧ probOf p_flu "Injury" < probOf p_base "Injury"
      ∧ probOf p_flu "Other" < probOf p_base "Other" := by
  have hfr1 : probOf p_base "Fever/Resp" = 16/100 := rfl
  have hfr2 : probOf p_flu "Fever/Resp" = 28/100 := rfl
  have hin1 : probOf p_flu "Injury" = 16/100 := rfl
  have hin2 : probOf p_base "Injury" = 22/100 := rfl
  have hot1 : probOf p_flu "Other" = 24/100 := rfl
  have hot2 : probOf p_base "Other" = 26/100 := rfl
  refine ⟨rfl, rfl, ?_, ?_, ?_⟩ <;>
    simp only [hfr1, hfr2, hin1, hin2, hot1, hot2] <;> norm_num

/-- C4 (counterexample): holding the hour-intensity term, flu-wave flag and
noise draw fixed, a Tuesday arrival (`dow = 1`) does **not** yield a lower
pre-clip bed occupancy than an otherwise identical Monday arrival
(`dow = 0`): both values equal 70, because `dow_effect` is never used. -/
theorem tuesday_occupancy_equals_monday :
    bed_occ_preclip 15 1 0 0 = bed_occ_preclip 15 0 0 0
      ∧ bed_occ_preclip 15 1 0 0 = 70
      ∧ bed_occ_preclip 15 0 0 0 = 70 := by
  refine ⟨?_, ?_, ?_⟩ <;> norm_num [bed_occ_preclip, weekend]

/-- C4 (amended): the day-of-week multiplier `dow_effect` (weekend +10%,
Tuesday −5%) is computed but never used; pre-clip bed occupancy depends on
the day of week only through the additive `6 * weekend` term, so an
otherwise identical Tuesday and Monday arrival yield equal pre-clip
occupancy, while a weekend day adds exactly 6 points. -/
theorem dow_effect_unused :
    (∀ hourTerm fluWave noise : ℚ,
        bed_occ_preclip hourTerm 1 fluWave noise
          = bed_occ_preclip hourTerm 0 fluWave noise)
      ∧ (∀ hourTerm fluWave noise : ℚ,
        bed_occ_preclip hourTerm 5 fluWave noise
          = bed_occ_preclip hourTerm 0 fluWave noise + 6)
      ∧ dow_effect 1 = 19/20 ∧ dow_effect 0 = 1 := by
  refine ⟨fun ht f nz => by norm_num [bed_occ_preclip, weekend],
    fun ht f nz => by norm_num [bed_occ_preclip, weekend]; ring,
    by norm_num [dow_effect, weekend],
    by norm_num [dow_effect, weekend]⟩

/-- C5: disposition decision order.  The two chained `np.where` steps are
equivalent to: if the first draw `r` is below `lwbs_prob` the row is
"Left Without Being Seen" regardless of the second draw; otherwise the row
is "Admitted" exactly when the independent second draw `r2` is below
`admit_prob` and "Discharged" otherwise; and the LWBS probability is the
sigmoid of the LWBS score clipped into `[0, 0.40]`. -/
theorem disposition_order (score admitP r r2 : ℝ) :
    disposition r (lwbs_prob_of score) r2 admitP
      = (if r < lwbs_prob_of score then "Left Without Being Seen"
         else if r2 < admitP then "Admitted" else "Discharged")
    ∧ 0 ≤ lwbs_prob_of score ∧ lwbs_prob_of score ≤ 40/100 := by
  refine ⟨?_, le_min (le_max_right _ _) (by norm_num), min_le_right _ _⟩
  unfold disposition
  by_cases h : r < lwbs_prob_of score <;> by_cases h2 : r2 < admitP <;>
    simp [h, h2]

/-- C6: the flu-wave flag is 1 exactly when the day index (whole days since
the start, truncated — equal to the floor since arrivals never precede the
start) lies in the closed interval `[35, 55]`, is 0 otherwise, depends on
the arrival time only through the day index, and in raw minutes the window
is `[35 * 1440, 56 * 1440)`. -/
theorem flu_wave_window (m : ℕ) :
    (flu_wave_flag m = 1 ↔ 35 ≤ day_index m ∧ day_index m ≤ 55)
    ∧ (flu_wave_flag m = 0 ↔ ¬(35 ≤ day_index m ∧ day_index m ≤ 55))
    ∧ (∀ m' : ℕ, day_index m' = day_index m
        → flu_wave_flag m' = flu_wave_flag m)
    ∧ (flu_wave_flag m = 1 ↔ 50400 ≤ m ∧ m ≤ 80639) := by
  refine ⟨?_, ?_, ?_, ?_⟩
  · unfold flu_wave_flag
    split_ifs with h <;> simp [h]
  · unfold flu_wave_flag
    split_ifs with h <;> simp [h]
  · intro m' hm
    unfold flu_wave_flag
    rw [hm]
  · unfold flu_wave_flag day_index
    split_ifs with h <;> simp <;> omega

/-- C6 witness: minute 50401 lies on the same day index (35) as minute
50400, so its flag agrees, and the flag at day 35 is 1. -/
theorem flu_wave_window_witness :
    flu_wave_flag 50401 = flu_wave_flag 50400 ∧ flu_wave_flag 50400 = 1 :=
  ⟨(flu_wave_window 50400).2.2.1 50401 (by decide),
   (flu_wave_window 50400).2.2.2.mpr (by decide)⟩

/-- C7: for every generated row — whatever the abstracted noise and
intensity draws are — the rounded, clipped bed occupancy lies in
`[35, 98]`, the door-to-provider minutes are an integer in `[2, 240]`, the
length of stay is an integer in `[25, 900]`, and the disposition is one of
the three categories. -/
theorem generated_row_bounds (hourTerm fluWave nz1 nz2 nz3 : ℚ)
    (dow triage labs imaging : ℕ) (bedOcc r lwbsP r2 admitP : ℚ) :
    (35 ≤ bed_occupancy_pct hourTerm dow fluWave nz1
      ∧ bed_occupancy_pct hourTerm dow fluWave nz1 ≤ 98)
    ∧ (2 ≤ door_to_provider_min bedOcc fluWave triage nz2
      ∧ door_to_provider_min bedOcc fluWave triage nz2 ≤ 240)
    ∧ (25 ≤ length_of_stay_min bedOcc nz3 labs imaging triage fluWave
      ∧ length_of_stay_min bedOcc nz3 labs imaging triage fluWave ≤ 900)
    ∧ disposition r lwbsP r2 admitP
        ∈ (["Discharged", "Admitted", "Left Without Being Seen"]
            : List String) := by
  refine ⟨?_, ?_, ?_, ?_⟩
  · obtain ⟨hc1, hc2⟩ := clip_mem
      (bed_occ_preclip hourTerm dow fluWave nz1)
      (show (35:ℚ) ≤ 98 by norm_num)
    have h := round1_mem (a := 35) (b := 98)
      (by exact_mod_cast hc1) (by exact_mod_cast hc2)
    unfold bed_occupancy_pct
    exact ⟨by exact_mod_cast h.1, by exact_mod_cast h.2⟩
  · obtain ⟨hc1, hc2⟩ := clip_mem
      (dtp_mean bedOcc fluWave triage nz2)
      (show (2:ℚ) ≤ 240 by norm_num)
    have h := roundHalfEven_mem (a := 2) (b := 240)
      (by exact_mod_cast hc1) (by exact_mod_cast hc2)
    unfold door_to_provider_min
    exact h
  · obtain ⟨hc1, hc2⟩ := clip_mem
      (los bedOcc nz3 labs imaging triage fluWave)
      (show (25:ℚ) ≤ 900 by norm_num)
    have h := roundHalfEven_mem (a := 25) (b := 900)
      (by exact_mod_cast hc1) (by exact_mod_cast hc2)
    unfold length_of_stay_min
    exact h
  · unfold disposition
    by_cases h : r < lwbsP <;> by_cases h2 : r2 < admitP <;> simp [h, h2]

/-- C8: a row passes the dashboard filter mask exactly when its arrival
date lies in the inclusive range and each of the four categorical fields
belongs to the corresponding selected set; consequently an empty selection
for any one of the four categorical filters yields an empty filtered
frame. -/
theorem filter_semantics (df : List Row) (startD endD : ℕ) (tsel : List ℕ)
    (csel msel psel : List String) (r : Row) :
    (mask startD endD tsel csel msel psel r = true
      ↔ startD ≤ r.arrival_date ∧ r.arrival_date ≤ endD
        ∧ r.triage_level ∈ tsel ∧ r.chief_complaint ∈ csel
        ∧ r.arrival_mode ∈ msel ∧ r.pod ∈ psel)
    ∧ applyFilters df startD endD [] csel msel psel = []
    ∧ applyFilters df startD endD tsel [] msel psel = []
    ∧ applyFilters df startD endD tsel csel [] psel = []
    ∧ applyFilters df startD endD tsel csel msel [] = [] := by
  refine ⟨?_, ?_, ?_, ?_, ?_⟩ <;>
    simp [mask, applyFilters, List.filter_eq_nil_iff, and_assoc]

/-- C10: over a nonempty filtered set whose dispositions all lie in the
three-element category set, the LWBS rate and the admission rate are each
within `[0, 100]` and together with the discharged share they sum to
exactly 100 percent. -/
theorem rates_partition (dff : List Row) (hne : dff ≠ [])
    (hdisp : ∀ r ∈ dff, r.disposition = "Discharged"
      ∨ r.disposition = "Admitted"
      ∨ r.disposition = "Left Without Being Seen") :
    (0 ≤ lwbs_rate dff ∧ lwbs_rate dff ≤ 100)
    ∧ (0 ≤ admit_rate dff ∧ admit_rate dff ≤ 100)
    ∧ lwbs_rate dff + admit_rate dff + dispShare "Discharged" dff
        = 100 := by
  have hlen : dff.length ≠ 0 := fun h => hne (List.length_eq_zero.mp h)
  have hn : (0:ℚ) < dff.length := by
    exact_mod_cast Nat.pos_of_ne_zero hlen
  have hL := List.length_filter_le
    (fun r => r.disposition == "Left Without Being Seen") dff
  have hA := List.length_filter_le
    (fun r => r.disposition == "Admitted") dff
  have hpart := disposition_counts_partition dff hdisp
  unfold lwbs_rate admit_rate
  rw [if_pos hlen, if_pos hlen]
  unfold dispShare
  have hLq : ((dff.filter
      (fun r => r.disposition == "Left Without Being Seen")).length : ℚ)
      ≤ (dff.length : ℚ) := by exact_mod_cast hL
  have hAq : ((dff.filter
      (fun r => r.disposition == "Admitted")).length : ℚ)
      ≤ (dff.length : ℚ) := by exact_mod_cast hA
  have hsum : ((dff.filter
        (fun r => r.disposition == "Left Without Being Seen")).length : ℚ)
      + ((dff.filter (fun r => r.disposition == "Admitted")).length : ℚ)
      + ((dff.filter (fun r => r.disposition == "Discharged")).length : ℚ)
      = (dff.length : ℚ) := by exact_mod_cast hpart
  refine ⟨⟨by positivity, ?_⟩, ⟨by positivity, ?_⟩, ?_⟩
  · have h1 : ((dff.filter
        (fun r => r.disposition == "Left Without Being Seen")).length : ℚ)
        / dff.length ≤ 1 := (div_le_one hn).mpr hLq
    nlinarith [h1]
  · have h1 : ((dff.filter
        (fun r => r.disposition == "Admitted")).length : ℚ)
        / dff.length ≤ 1 := (div_le_one hn).mpr hAq
    nlinarith [h1]
  · field_simp
    linarith [hsum]

/-- A fixture row for the C10 witness: only the disposition varies. -/
def sampleRow (d : String) : Row :=
  { arrival_date := 0, triage_level := 3, chief_complaint := "Other",
    arrival_mode := "Walk-in", pod := "Pod A", door_to_provider_min := 20,
    length_of_stay_min := 100, bed_occupancy_pct := 70, disposition := d,
    hour := 0 }

/-- C10 witness: the rate identities instantiated on a concrete two-row
frame (one discharged, one admitted visit). -/
theorem rates_partition_witness :
    (0 ≤ lwbs_rate [sampleRow "Discharged", sampleRow "Admitted"]
      ∧ lwbs_rate [sampleRow "Discharged", sampleRow "Admitted"] ≤ 100)
    ∧ (0 ≤ admit_rate [sampleRow "Discharged", sampleRow "Admitted"]
      ∧ admit_rate [sampleRow "Discharged", sampleRow "Admitted"] ≤ 100)
    ∧ lwbs_rate [sampleRow "Discharged", sampleRow "Admitted"]
        + admit_rate [sampleRow "Discharged", sampleRow "Admitted"]
        + dispShare "Discharged" [sampleRow "Discharged", sampleRow "Admitted"]
        = 100 :=
  rates_partition [sampleRow "Discharged", sampleRow "Admitted"]
    (List.cons_ne_nil _ _)
    (by
      intro r hr
      rcases List.mem_cons.mp hr with rfl | hr2
      · left; rfl
      · rcases List.mem_cons.mp hr2 with rfl | h3
        · right; left; rfl
        · exact absurd h3 (List.not_mem_nil r))

end EDFlow
